import Mathlib

/-!
Shallow embedding of the EV infotainment backend
(`src/backend/main.py`, `src/backend/parking_module.py`).

Python values that flow through JSON payloads, the settings map and the
parking-module dictionaries are modelled by `PyVal`; machine floats are
modelled by rationals; fallible Python code is modelled with `Except`
(an uncaught exception is an `Except.error`); the outcome of each
hardware/driver call that the code wraps in `try`/`except` is supplied
as an explicit input so that theorems can quantify over success and
failure of each driver independently.
-/

/-- A Python value as it appears in the JSON payloads and internal dicts:
`None`, a bool, an int, a float (modelled as a rational) or a string. -/
inductive PyVal where
  | none
  | bool (b : Bool)
  | int (n : ℤ)
  | rat (q : ℚ)
  | str (s : String)
  deriving DecidableEq

/-- Python truthiness of a `PyVal` (used by `if dht_data[...]` checks). -/
def pyTruthy : PyVal → Bool
  | .none => false
  | .bool b => b
  | .int n => n ≠ 0
  | .rat q => q ≠ 0
  | .str s => s ≠ ""

/-- Python `v - n` for an int literal `n`: defined on numeric values
(bools are ints in Python), raises `TypeError` otherwise. -/
def pySubInt (v : PyVal) (n : ℤ) : Except String PyVal :=
  match v with
  | .bool b => .ok (.int ((if b then 1 else 0) - n))
  | .int m => .ok (.int (m - n))
  | .rat q => .ok (.rat (q - (n : ℚ)))
  | _ => .error "TypeError: unsupported operand for -"

/-- `Option ℚ` to `PyVal` (a float-or-None Python value). -/
def optRatToVal : Option ℚ → PyVal
  | some q => .rat q
  | Option.none => .none

/-- `Option String` to `PyVal` (a str-or-None Python value). -/
def optStrToVal : Option String → PyVal
  | some s => .str s
  | Option.none => .none

/-- Python `d[k]` on a dict: value on hit, `KeyError` on miss. -/
def dictGetItem (d : List (String × PyVal)) (k : String) : Except String PyVal :=
  match d.lookup k with
  | some v => .ok v
  | Option.none => .error ("KeyError: " ++ k)

/-- Python `d.get(k)` on a dict: value on hit, `None` on miss. -/
def dictGet (d : List (String × PyVal)) (k : String) : PyVal :=
  (d.lookup k).getD .none

/-! ## Parking & cabin module (`parking_module.py`) -/

/-- `ParkingAndCabinModule._derive_warning` (parking_module.py:252-262). -/
def derive_warning (distance : Option ℚ) : Option String :=
  match distance with
  | Option.none => Option.none
  | some d =>
    if d ≤ 10 then some "high"
    else if d ≤ 20 then some "medium"
    else if d ≤ 30 then some "low"
    else some "clear"

/-- The dictionary returned by `ParkingAndCabinModule.read`
(parking_module.py:292-301), with its eight fixed keys. -/
structure ParkingRecord where
  reverse_engaged : Bool
  motion_detected : Bool
  rear_left_distance_cm : Option ℚ
  rear_right_distance_cm : Option ℚ
  rear_left_warning : Option String
  rear_right_warning : Option String
  temperature_c : Option ℚ
  humidity_pct : Option ℚ
  deriving DecidableEq

/-- The safe-default record returned by `read`'s `except` branch
(parking_module.py:305-314). -/
def safeDefaultRecord : ParkingRecord :=
  { reverse_engaged := false
    motion_detected := false
    rear_left_distance_cm := Option.none
    rear_right_distance_cm := Option.none
    rear_left_warning := Option.none
    rear_right_warning := Option.none
    temperature_c := Option.none
    humidity_pct := Option.none }

/-- `ParkingAndCabinModule._mock_reverse` (parking_module.py:242-244):
reverse is engaged exactly in mock phases 2 and 3. -/
def mockReverse (phase : ℕ) : Bool :=
  phase = 2 ∨ phase = 3

/-- Per-sensor offset used by `_mock_distance` (parking_module.py:232):
5 for the rear-right sensor, 0 otherwise. -/
def mockOffset (sensor_id : String) : ℚ :=
  if sensor_id = "rear_right" then 5 else 0

/-- Lower bound of the `random.uniform` range `_mock_distance` draws from
in a given phase (parking_module.py:234-240). -/
def mockDistLo (phase : ℕ) (offset : ℚ) : ℚ :=
  if phase = 0 then 35 + offset
  else if phase = 1 then 22 + offset
  else if phase = 2 then 12 + offset
  else 5 + offset

/-- Upper bound of the `random.uniform` range `_mock_distance` draws from
in a given phase (parking_module.py:234-240). -/
def mockDistHi (phase : ℕ) (offset : ℚ) : ℚ :=
  if phase = 0 then 55 + offset
  else if phase = 1 then 30 + offset
  else if phase = 2 then 19 + offset
  else 9 + offset

/-- The draw `d` is a possible output of `_mock_distance sensor_id` in the
given phase (the `random.uniform` bounds of parking_module.py:234-240). -/
def mockDrawValid (phase : ℕ) (sensor_id : String) (d : ℚ) : Prop :=
  mockDistLo phase (mockOffset sensor_id) ≤ d ∧ d ≤ mockDistHi phase (mockOffset sensor_id)

/-- `ParkingAndCabinModule.read` (parking_module.py:265-314).

Inputs model the environment of one call:
* `usingReal` — `self._using_real`;
* `bodyRaises` — whether the body raises, taking the `except` branch
  (parking_module.py:302-314);
* `gpioReverse`, `gpioMotion` — results of `_read_gpio_bool` on the
  reverse button and PIR pins (that helper itself never raises);
* `ultraLeft`, `ultraRight` — results of the two `_read_ultrasonic`
  calls (that helper returns `None` on any fault, never raises);
* `dhtPair` — result of `_read_dht` (cached pair, never raises);
* `phase` — `self._mock_phase` at entry; `leftDraw`, `rightDraw` — the
  `random.uniform` draws of `_mock_distance` for each sensor;
  `motionDraw` — the `random.random() < 0.15` outcome of `_mock_motion`;
  `mockTemp`, `mockHum` — the `_mock_temperature` / `_mock_humidity`
  draws. -/
def ParkingAndCabinModule.read
    (usingReal bodyRaises : Bool)
    (gpioReverse gpioMotion : Bool)
    (ultraLeft ultraRight : Option ℚ)
    (dhtPair : Option ℚ × Option ℚ)
    (phase : ℕ) (leftDraw rightDraw : ℚ) (motionDraw : Bool)
    (mockTemp mockHum : ℚ) : ParkingRecord :=
  if bodyRaises then safeDefaultRecord
  else
    let reverse_engaged := if usingReal then gpioReverse else mockReverse phase
    let motion :=
      if usingReal then gpioMotion
      else if reverse_engaged then motionDraw else false
    let rear_left_dist : Option ℚ :=
      if usingReal then (if reverse_engaged then ultraLeft else Option.none)
      else (if reverse_engaged then some leftDraw else Option.none)
    let rear_right_dist : Option ℚ :=
      if usingReal then (if reverse_engaged then ultraRight else Option.none)
      else (if reverse_engaged then some rightDraw else Option.none)
    let temp : Option ℚ := if usingReal then dhtPair.1 else some mockTemp
    let hum : Option ℚ := if usingReal then dhtPair.2 else some mockHum
    let rear_left_warning := derive_warning (if reverse_engaged then rear_left_dist else Option.none)
    let rear_right_warning := derive_warning (if reverse_engaged then rear_right_dist else Option.none)
    { reverse_engaged := reverse_engaged
      motion_detected := motion
      rear_left_distance_cm := if reverse_engaged then rear_left_dist else Option.none
      rear_right_distance_cm := if reverse_engaged then rear_right_dist else Option.none
      rear_left_warning := if reverse_engaged then rear_left_warning else Option.none
      rear_right_warning := if reverse_engaged then rear_right_warning else Option.none
      temperature_c := temp
      humidity_pct := hum }

/-! ### DHT11 cached read (`_read_dht`, parking_module.py:151-196) -/

/-- Outcome of one attempt of the `while attempt < 3` loop body:
either the property accesses raise, or they yield a
(temperature, humidity) pair in which either component may be `None`. -/
inductive DhtAttempt where
  | raised
  | value (t h : Option ℚ)
  deriving DecidableEq

/-- The DHT-related instance state: `_dht_last_read_ts`,
`_dht_cached_temp`, `_dht_cached_hum` (parking_module.py:65-67). -/
structure DhtState where
  lastReadTs : ℚ
  cachedTemp : Option ℚ
  cachedHum : Option ℚ
  deriving DecidableEq

/-- Round-half-to-even on rationals (Python 3 `round` semantics). -/
def pyRoundInt (x : ℚ) : ℤ :=
  if x - ⌊x⌋ = 1 / 2 then (if 2 ∣ ⌊x⌋ then ⌊x⌋ else ⌊x⌋ + 1) else round x

/-- Python `round(x, 1)`. -/
def pyRound1 (x : ℚ) : ℚ :=
  (pyRoundInt (x * 10) : ℚ) / 10

/-- The retry loop of `_read_dht` (parking_module.py:169-187), starting at
attempt index `i` with `n` attempts left: returns the first accepted
fresh pair (both components present) together with the number of
attempts consumed, or `none` and all attempts consumed. -/
def dhtLoop (att : ℕ → DhtAttempt) (i : ℕ) : ℕ → Option (ℚ × ℚ) × ℕ
  | 0 => (Option.none, i)
  | n + 1 =>
    match att i with
    | .value (some t) (some h) => (some (t, h), i + 1)
    | _ => dhtLoop att (i + 1) n

/-- `ParkingAndCabinModule._read_dht` (parking_module.py:151-196).
`now` is `time.time()` at entry; `att i` is the outcome of attempt `i`.
Returns the (temperature, humidity) pair, the updated DHT state, and the
number of hardware attempts performed. -/
def readDht (usingReal : Bool) (now : ℚ) (att : ℕ → DhtAttempt)
    (s : DhtState) : (Option ℚ × Option ℚ) × DhtState × ℕ :=
  if usingReal = false then ((s.cachedTemp, s.cachedHum), s, 0)
  else if now - s.lastReadTs < 5 / 2 ∧ s.cachedTemp.isSome ∧ s.cachedHum.isSome then
    ((s.cachedTemp, s.cachedHum), s, 0)
  else
    match dhtLoop att 0 3 with
    | (some (t, h), used) =>
      let s2 : DhtState :=
        { lastReadTs := now
          cachedTemp := some (pyRound1 t)
          cachedHum := some (pyRound1 h) }
      ((s2.cachedTemp, s2.cachedHum), s2, used)
    | (Option.none, used) => ((s.cachedTemp, s.cachedHum), s, used)

/-! ## Backend server state (`main.py`, `EVBackendServer.__init__`) -/

/-- The `self.settings` dict (main.py:435-443). Values are arbitrary
`PyVal`s because the setter commands store client-supplied values
verbatim. -/
structure Settings where
  charge_limit : PyVal
  regen_level : PyVal
  drive_mode : PyVal
  brightness : PyVal
  light_theme : PyVal
  predictions_on : PyVal
  twin_mode : PyVal
  deriving DecidableEq

/-- The initial `self.settings` values (main.py:435-443). -/
def initialSettings : Settings :=
  { charge_limit := .int 80
    regen_level := .str "standard"
    drive_mode := .str "eco"
    brightness := .int 60
    light_theme := .bool false
    predictions_on := .bool true
    twin_mode := .str "3d" }

/-- The `self.tire_pressure` dict (main.py:446-451). -/
structure TirePressure where
  front_left : ℚ
  front_right : ℚ
  rear_left : ℚ
  rear_right : ℚ
  deriving DecidableEq

/-- Initial tire pressures (main.py:446-451). -/
def initialTirePressure : TirePressure :=
  { front_left := 352 / 10, front_right := 351 / 10
    rear_left := 349 / 10, rear_right := 35 }

/-- The `self.battery_cells` dict (main.py:454-458). -/
structure BatteryCells where
  block_a : ℚ
  block_b : ℚ
  block_c : ℚ
  deriving DecidableEq

/-- Initial battery-cell temperatures (main.py:454-458). -/
def initialBatteryCells : BatteryCells :=
  { block_a := 285 / 10, block_b := 291 / 10, block_c := 29 }

/-- The `current_track` dict of `BluetoothMediaController`
(main.py:199-205). -/
structure MediaTrack where
  title : String
  artist : String
  duration : ℤ
  position : ℤ
  is_playing : Bool
  deriving DecidableEq

/-- Mutable state of `BluetoothMediaController` (main.py:196-205). -/
structure BtState where
  connected : Bool
  device_name : String
  track : MediaTrack
  deriving DecidableEq

/-- Initial Bluetooth controller state (main.py:196-205). -/
def initialBtState : BtState :=
  { connected := false
    device_name := "No Device"
    track :=
      { title := "No Track Playing"
        artist := "Unknown Artist"
        duration := 180
        position := 0
        is_playing := false } }

/-- The mutable position baseline of `GPSModule` touched by the
`update_gps` command (main.py:136-138, 654-667). The coordinates are
stored verbatim, so they are `PyVal`s. -/
structure GpsState where
  current_lat : PyVal
  current_lon : PyVal
  usingClientGps : Bool
  deriving DecidableEq

/-- Initial GPS baseline (main.py:131-138): the BMU base coordinates;
the `_using_client_gps` attribute does not exist yet. -/
def initialGpsState : GpsState :=
  { current_lat := .rat (284595 / 10000)
    current_lon := .rat (770266 / 10000)
    usingClientGps := false }

/-- The shared mutable server state reachable from command handling:
settings, media/bluetooth state, GPS baseline, tire pressure and
battery cells (main.py:419-458). -/
structure ServerState where
  settings : Settings
  bluetooth : BtState
  gps : GpsState
  tire_pressure : TirePressure
  battery_cells : BatteryCells
  deriving DecidableEq

/-- The server state right after `EVBackendServer.__init__`. -/
def initialServerState : ServerState :=
  { settings := initialSettings
    bluetooth := initialBtState
    gps := initialGpsState
    tire_pressure := initialTirePressure
    battery_cells := initialBatteryCells }

/-- `self.VALID_COMMANDS` (main.py:461-467). -/
def VALID_COMMANDS : List String :=
  ["play_music", "pause_music", "next_track", "previous_track",
   "set_volume", "set_charge_limit", "set_regen_level",
   "set_drive_mode", "set_brightness", "set_theme",
   "toggle_predictions", "set_twin_mode", "connect_bluetooth",
   "update_gps"]

/-- The fields of a parsed client message that `handle_command` /
`execute_command` read via `data.get(...)`. `Option.none` models an
absent key; a present JSON `null` is `some PyVal.none`. -/
structure CmdData where
  action : Option String
  value : Option PyVal
  volume : Option PyVal
  device_address : Option PyVal
  latitude : Option PyVal
  longitude : Option PyVal
  source : Option PyVal
  deriving DecidableEq

/-- A client message carrying only an action name. -/
def actionOnly (a : Option String) : CmdData :=
  { action := a, value := Option.none, volume := Option.none
    device_address := Option.none, latitude := Option.none
    longitude := Option.none, source := Option.none }

/-- A message the server sends to one client: the `connection` ack, an
`error`, or a command `response` (with its optional echoed value). -/
inductive OutMsg where
  | connection (status message : String)
  | error (message : String)
  | response (action status : String) (value : Option PyVal)
  deriving DecidableEq

/-- Python `f"{x}"` on the value `data.get('action')` when it is a
string or `None`. -/
def pyShowAction : Option String → String
  | Option.none => "None"
  | some s => s

/-- A `PyVal` that Python's `format(v, '.6f')` accepts (int, float or
bool); a non-numeric value makes the f-string in the `update_gps`
branch raise. -/
def pyNumeric : PyVal → Bool
  | .int _ => true
  | .rat _ => true
  | .bool _ => true
  | _ => false

/-- `EVBackendServer.execute_command` (main.py:577-670). `randTrack`
models the `random.randint(1, 100)` draw used by `next_track` /
`previous_track`. An `Except.error` is an exception escaping to
`handle_command`'s generic handler. -/
def execute_command (st : ServerState) (randTrack : ℤ) (action : String)
    (data : CmdData) : Except String (ServerState × OutMsg) :=
  if action = "play_music" then
    .ok ({ st with bluetooth := { st.bluetooth with track := { st.bluetooth.track with is_playing := true } } },
      .response action "success" Option.none)
  else if action = "pause_music" then
    .ok ({ st with bluetooth := { st.bluetooth with track := { st.bluetooth.track with is_playing := false } } },
      .response action "success" Option.none)
  else if action = "next_track" then
    .ok ({ st with bluetooth := { st.bluetooth with track := { st.bluetooth.track with position := 0, title := "Track " ++ toString randTrack } } },
      .response action "success" Option.none)
  else if action = "previous_track" then
    .ok ({ st with bluetooth := { st.bluetooth with track := { st.bluetooth.track with position := 0, title := "Track " ++ toString randTrack } } },
      .response action "success" Option.none)
  else if action = "set_volume" then
    .ok (st, .response action "success" Option.none)
  else if action = "set_charge_limit" then
    let v := data.value.getD (.int 80)
    .ok ({ st with settings := { st.settings with charge_limit := v } },
      .response action "success" (some v))
  else if action = "set_regen_level" then
    let v := data.value.getD (.str "standard")
    .ok ({ st with settings := { st.settings with regen_level := v } },
      .response action "success" (some v))
  else if action = "set_drive_mode" then
    let v := data.value.getD (.str "eco")
    .ok ({ st with settings := { st.settings with drive_mode := v } },
      .response action "success" (some v))
  else if action = "set_brightness" then
    let v := data.value.getD (.int 60)
    .ok ({ st with settings := { st.settings with brightness := v } },
      .response action "success" (some v))
  else if action = "set_theme" then
    let v := data.value.getD (.bool false)
    .ok ({ st with settings := { st.settings with light_theme := v } },
      .response action "success" (some v))
  else if action = "toggle_predictions" then
    let v := data.value.getD (.bool true)
    .ok ({ st with settings := { st.settings with predictions_on := v } },
      .response action "success" (some v))
  else if action = "set_twin_mode" then
    let v := data.value.getD (.str "3d")
    .ok ({ st with settings := { st.settings with twin_mode := v } },
      .response action "success" (some v))
  else if action = "connect_bluetooth" then
    .ok ({ st with bluetooth := { st.bluetooth with connected := true, device_name := "Mock Phone" } },
      .response action "success" Option.none)
  else if action = "update_gps" then
    let lat := data.latitude.getD .none
    let lon := data.longitude.getD .none
    if lat ≠ .none ∧ lon ≠ .none then
      if pyNumeric lat ∧ pyNumeric lon then
        .ok ({ st with gps := { current_lat := lat, current_lon := lon, usingClientGps := true } },
          .response action "success" Option.none)
      else
        .error "ValueError: unsupported format in GPS log message"
    else
      .ok (st, .response action "success" Option.none)
  else
    .ok (st, .response action "unknown" Option.none)

/-- `EVBackendServer.handle_command` (main.py:533-575). The input is the
result of `json.loads` (`Except.error` = `JSONDecodeError`). Returns
the state after handling and the list of messages sent back on the
connection. -/
def handle_command (st : ServerState) (randTrack : ℤ)
    (msg : Except String CmdData) : ServerState × List OutMsg :=
  match msg with
  | .error _ => (st, [.error "Invalid JSON format"])
  | .ok data =>
    let actionTruthy := match data.action with
      | Option.none => false
      | some a => a ≠ ""
    if actionTruthy = false ∨ (pyShowAction data.action) ∉ VALID_COMMANDS then
      (st, [.error ("Invalid action: " ++ pyShowAction data.action)])
    else
      match execute_command st randTrack (pyShowAction data.action) data with
      | .ok (st2, resp) => (st2, [resp])
      | .error m => (st, [.error m])

/-! ## Telemetry aggregation (`collect_telemetry`, main.py:714-872) -/

/-- The dict returned by `CANBusInterface.read_vehicle_data`
(main.py:73-115): eight always-present keys. -/
structure VehicleData where
  speed : ℚ
  battery_soc : ℚ
  battery_voltage : ℚ
  battery_current : ℚ
  motor_rpm : ℚ
  motor_temp : ℚ
  range_km : ℚ
  power_kw : ℚ
  deriving DecidableEq

/-- The all-zero vehicle fallback used when the CAN read raises
(main.py:741-745). -/
def vehicleFallback : VehicleData :=
  { speed := 0, battery_soc := 0, battery_voltage := 0
    battery_current := 0, motor_rpm := 0, motor_temp := 0
    range_km := 0, power_kw := 0 }

/-- The dict returned by `GPSModule.read` (main.py:169-186): six
always-present keys. -/
structure GpsData where
  latitude : ℚ
  longitude : ℚ
  heading : ℚ
  altitude : ℚ
  satellites : ℤ
  speed_gps : ℚ
  deriving DecidableEq

/-- The GPS fallback used when the GPS read raises (main.py:752-755). -/
def gpsFallback : GpsData :=
  { latitude := 284595 / 10000, longitude := 770266 / 10000
    heading := 0, altitude := 240, satellites := 0, speed_gps := 0 }

/-- The dict returned by `BluetoothMediaController.get_status`
(main.py:277-285): seven always-present keys. -/
structure MediaStatus where
  connected : Bool
  device_name : String
  track_title : String
  track_artist : String
  duration : ℤ
  position : ℤ
  is_playing : Bool
  deriving DecidableEq

/-- The media fallback used when `get_status` raises (main.py:762-766). -/
def mediaFallback : MediaStatus :=
  { connected := false, device_name := "Error"
    track_title := "No Track Playing", track_artist := "Unknown Artist"
    duration := 0, position := 0, is_playing := false }

/-- The per-driver fallback parking dict installed when the parking read
raises (main.py:727-734) — note its keys `distance_cm` and
`proximity_warning`. -/
def parkingFailFallbackDict : List (String × PyVal) :=
  [("reverse_engaged", .bool false),
   ("motion_detected", .bool false),
   ("distance_cm", .none),
   ("proximity_warning", .none),
   ("temperature_c", .none),
   ("humidity_pct", .none)]

/-- The dict `ParkingAndCabinModule.read` actually returns
(parking_module.py:292-301), as an association list in source order. -/
def ParkingRecord.toDict (r : ParkingRecord) : List (String × PyVal) :=
  [("reverse_engaged", .bool r.reverse_engaged),
   ("motion_detected", .bool r.motion_detected),
   ("rear_left_distance_cm", optRatToVal r.rear_left_distance_cm),
   ("rear_right_distance_cm", optRatToVal r.rear_right_distance_cm),
   ("rear_left_warning", optStrToVal r.rear_left_warning),
   ("rear_right_warning", optStrToVal r.rear_right_warning),
   ("temperature_c", optRatToVal r.temperature_c),
   ("humidity_pct", optRatToVal r.humidity_pct)]

/-- The `cabin` sub-dict of a telemetry snapshot (main.py:781-784). -/
structure CabinSection where
  temperature_c : PyVal
  humidity_pct : PyVal
  deriving DecidableEq

/-- The `connectivity` sub-dict of a snapshot (main.py:822-826). -/
structure ConnSection where
  wifi : Bool
  bluetooth : Bool
  can_bus : Bool
  deriving DecidableEq

/-- The `parking` sub-dict of a snapshot (main.py:832-837). -/
structure ParkingSection where
  reverse_engaged : PyVal
  motion_detected : PyVal
  distance_cm : PyVal
  proximity_warning : PyVal
  deriving DecidableEq

/-- A full telemetry snapshot as compiled by `collect_telemetry`
(main.py:774-841; fallback shape main.py:848-872). -/
structure Telemetry where
  type : String
  timestamp : String
  ambient_temp : PyVal
  humidity : PyVal
  cabin : CabinSection
  speed : ℚ
  range_km : ℚ
  battery_soc : ℚ
  battery_voltage : ℚ
  battery_current : ℚ
  battery_soh : ℚ
  motor_rpm : ℚ
  motor_temp : ℚ
  power_kw : ℚ
  efficiency_score : ℚ
  wheel_speed : ℚ
  gps : GpsData
  tire_pressure : TirePressure
  battery_cells : BatteryCells
  connectivity : ConnSection
  media : MediaStatus
  parking : ParkingSection
  settings : Settings
  deriving DecidableEq

/-- The minimal safe fallback snapshot of `collect_telemetry`'s outer
`except` branch (main.py:848-872); it still carries `self.settings`. -/
def fallbackTelemetry (timestamp : String) (settings : Settings) : Telemetry :=
  { type := "telemetry"
    timestamp := timestamp
    ambient_temp := .none
    humidity := .none
    cabin := { temperature_c := .none, humidity_pct := .none }
    speed := 0, range_km := 0
    battery_soc := 0, battery_voltage := 0, battery_current := 0
    battery_soh := 0
    motor_rpm := 0, motor_temp := 0, power_kw := 0
    efficiency_score := 0, wheel_speed := 0
    gps := gpsFallback
    tire_pressure := { front_left := 0, front_right := 0, rear_left := 0, rear_right := 0 }
    battery_cells := { block_a := 0, block_b := 0, block_c := 0 }
    connectivity := { wifi := false, bluetooth := false, can_bus := false }
    media := mediaFallback
    parking :=
      { reverse_engaged := .bool false, motion_detected := .bool false
        distance_cm := .none, proximity_warning := .none }
    settings := settings }

/-- The value of `telemetry['cabin']['temperature_c']` (main.py:782):
`cabin_temp if cabin_temp is not None else
(dht_data['temperature'] - 2 if dht_data['temperature'] else None)`. -/
def cabinTempValue (cabin_temp dhtTemp : PyVal) : Except String PyVal :=
  if cabin_temp ≠ .none then .ok cabin_temp
  else if pyTruthy dhtTemp then pySubInt dhtTemp 2
  else .ok .none

/-- The value of `telemetry['cabin']['humidity_pct']` (main.py:783). -/
def cabinHumValue (cabin_hum dhtHum : PyVal) : PyVal :=
  if cabin_hum ≠ .none then cabin_hum else dhtHum

/-- The value of an `Except`, or a default when it is an error (models a
`try`/`except` block that substitutes a fallback value). -/
def exceptGetD {A : Type} (r : Except String A) (d : A) : A :=
  match r with
  | .ok a => a
  | .error _ => d

/-- The outer `try`/`except` of `collect_telemetry` (main.py:716-872):
return the assembled snapshot, or the minimal fallback if assembling it
raised. -/
def finishTelemetry (r : Except String Telemetry) (timestamp : String)
    (settings : Settings) : Telemetry :=
  match r with
  | .ok t => t
  | .error _ => fallbackTelemetry timestamp settings

/-- The body of `collect_telemetry`'s outer `try` (main.py:716-843),
after the four per-driver `try`/`except` blocks have resolved the
driver dicts. An `Except.error` is an exception reaching the outer
handler (in particular a `KeyError` from the `parking` section's
subscript lookups on `parking_data`). -/
def buildTelemetry (parking_data : List (String × PyVal))
    (dhtTemp dhtHum : PyVal)
    (vd : VehicleData) (gd : GpsData) (ms : MediaStatus)
    (timestamp : String) (soh eff wheel : ℚ) (wifi : Bool)
    (btConnected canConnected : Bool)
    (tp : TirePressure) (bc : BatteryCells) (settings : Settings) :
    Except String Telemetry :=
  match cabinTempValue (dictGet parking_data "temperature_c") dhtTemp with
  | .error e => .error e
  | .ok cabinT =>
    match dictGetItem parking_data "reverse_engaged" with
    | .error e => .error e
    | .ok pRev =>
      match dictGetItem parking_data "motion_detected" with
      | .error e => .error e
      | .ok pMot =>
        match dictGetItem parking_data "distance_cm" with
        | .error e => .error e
        | .ok pDist =>
          match dictGetItem parking_data "proximity_warning" with
          | .error e => .error e
          | .ok pWarn =>
            .ok
              { type := "telemetry"
                timestamp := timestamp
                ambient_temp := dictGet parking_data "temperature_c"
                humidity := dictGet parking_data "humidity_pct"
                cabin :=
                  { temperature_c := cabinT
                    humidity_pct := cabinHumValue (dictGet parking_data "humidity_pct") dhtHum }
                speed := vd.speed
                range_km := vd.range_km
                battery_soc := vd.battery_soc
                battery_voltage := vd.battery_voltage
                battery_current := vd.battery_current
                battery_soh := soh
                motor_rpm := vd.motor_rpm
                motor_temp := vd.motor_temp
                power_kw := vd.power_kw
                efficiency_score := eff
                wheel_speed := wheel
                gps := gd
                tire_pressure := tp
                battery_cells := bc
                connectivity := { wifi := wifi, bluetooth := btConnected, can_bus := canConnected }
                media := ms
                parking :=
                  { reverse_engaged := pRev, motion_detected := pMot
                    distance_cm := pDist, proximity_warning := pWarn }
                settings := settings }

/-- `EVBackendServer.collect_telemetry` (main.py:714-872).

Each driver call that the code wraps in its own `try`/`except` is an
`Except`-valued input (`Except.error` = that driver raised):
`parkingRes` is the parking-module read (main.py:719), `canRes` the CAN
read (main.py:738), `gpsRes` the GPS read (main.py:749), `btRes` the
Bluetooth status (main.py:759). `soh`, `eff`, `wheel`, `wifi` model the
`random` draws; `timestamp` models `datetime.now().isoformat()`. -/
def collect_telemetry (parkingRes : Except String (List (String × PyVal)))
    (canRes : Except String VehicleData)
    (gpsRes : Except String GpsData)
    (btRes : Except String MediaStatus)
    (timestamp : String) (soh eff wheel : ℚ) (wifi : Bool)
    (btConnected canConnected : Bool)
    (tp : TirePressure) (bc : BatteryCells) (settings : Settings) : Telemetry :=
  finishTelemetry
    (buildTelemetry
      (exceptGetD parkingRes parkingFailFallbackDict)
      (exceptGetD (Except.map (fun d => dictGet d "temperature_c") parkingRes) PyVal.none)
      (exceptGetD (Except.map (fun d => dictGet d "humidity_pct") parkingRes) PyVal.none)
      (exceptGetD canRes vehicleFallback)
      (exceptGetD gpsRes gpsFallback)
      (exceptGetD btRes mediaFallback)
      timestamp soh eff wheel wifi btConnected canConnected tp bc settings)
    timestamp settings

/-! ## Broadcast tick (`broadcast_telemetry`, main.py:672-712) -/

/-- One tick of the broadcast loop over a nonempty client set
(main.py:682-696): the snapshot is serialized once and sent to every
registered client via `asyncio.gather(..., return_exceptions=True)`;
`sendFails c` says whether the send to client `c` raises. Per-client
failures are only logged (main.py:690-692) — the loop body never
mutates `self.clients`. Returns the list of (client, payload)
deliveries that succeeded, and the client set after the tick. -/
def broadcast_tick (clients : List ℕ) (sendFails : ℕ → Bool)
    (snapshot : Telemetry) : List (ℕ × Telemetry) × List ℕ :=
  ((clients.filter (fun c => sendFails c = false)).map (fun c => (c, snapshot)),
   clients)

/-- A client message carrying an action and an optional `value` field. -/
def setterMsg (a : String) (v : Option PyVal) : CmdData :=
  { action := some a, value := v, volume := Option.none
    device_address := Option.none, latitude := Option.none
    longitude := Option.none, source := Option.none }

/-- `dhtAttemptAccepted a` iff the loop body of `_read_dht` accepts the
attempt outcome `a` as a fresh reading (both components present,
parking_module.py:178). -/
def dhtAttemptAccepted : DhtAttempt → Bool
  | .value (some _) (some _) => true
  | _ => false

/-! ## Concrete fixtures used by closed evaluations -/

/-- A parking record produced by a fully successful mock-mode read with
reverse not engaged (phase 0): every driver behaved normally. -/
def normalParkingRecord : ParkingRecord :=
  ParkingAndCabinModule.read false false false false Option.none Option.none
    (Option.none, Option.none) 0 40 45 false 25 50

/-- A parking record produced by a successful mock-mode read in the
"high" phase (phase 3) with in-range draws: left 7 cm, right 12 cm. -/
def highPhaseRecord : ParkingRecord :=
  ParkingAndCabinModule.read false false false false Option.none Option.none
    (Option.none, Option.none) 3 7 12 false 25 50

/-- A concrete successful CAN-bus reading within the mock ranges
(main.py:94-103). -/
def vd0 : VehicleData :=
  { speed := 50, battery_soc := 80, battery_voltage := 400
    battery_current := 10, motor_rpm := 3000, motor_temp := 70
    range_km := 300, power_kw := 40 }

/-- A concrete successful GPS reading (main.py:169-176). -/
def gd0 : GpsData :=
  { latitude := 284600 / 10000, longitude := 770270 / 10000
    heading := 20, altitude := 240, satellites := 10, speed_gps := 30 }

/-- A concrete successful Bluetooth media status (main.py:277-285). -/
def ms0 : MediaStatus :=
  { connected := false, device_name := "No Device"
    track_title := "No Track Playing", track_artist := "Unknown Artist"
    duration := 180, position := 0, is_playing := false }

/-- A concrete snapshot used as broadcast payload in closed theorems. -/
def snap0 : Telemetry := fallbackTelemetry "t0" initialSettings

/-! ## Theorems -/

/-- C3: for every distance input `d` to the warning deriver, the result
is `high` iff `d ≤ 10`, `medium` iff `10 < d ≤ 20`, `low` iff
`20 < d ≤ 30`, `clear` iff `d > 30`, and absent iff `d` is absent. -/
theorem derive_warning_thresholds (d : Option ℚ) :
    (derive_warning d = some "high" ↔ ∃ q, d = some q ∧ q ≤ 10) ∧
    (derive_warning d = some "medium" ↔ ∃ q, d = some q ∧ 10 < q ∧ q ≤ 20) ∧
    (derive_warning d = some "low" ↔ ∃ q, d = some q ∧ 20 < q ∧ q ≤ 30) ∧
    (derive_warning d = some "clear" ↔ ∃ q, d = some q ∧ 30 < q) ∧
    (derive_warning d = Option.none ↔ d = Option.none) := by
  cases d with
  | none => simp [derive_warning]
  | some q =>
    simp only [derive_warning, Option.some.injEq]
    split_ifs with h1 h2 h3 <;>
      refine ⟨?_, ?_, ?_, ?_, ?_⟩ <;> simp_all <;> intros <;> linarith

/-- C4: whenever `read` returns a record with reverse not engaged, all
four proximity fields (both distances and both warnings) are absent,
whatever the drivers measured. -/
theorem read_reverse_off_all_absent
    (usingReal bodyRaises gpioReverse gpioMotion : Bool)
    (ultraLeft ultraRight : Option ℚ) (dhtPair : Option ℚ × Option ℚ)
    (phase : ℕ) (leftDraw rightDraw : ℚ) (motionDraw : Bool)
    (mockTemp mockHum : ℚ)
    (h : (ParkingAndCabinModule.read usingReal bodyRaises gpioReverse gpioMotion
        ultraLeft ultraRight dhtPair phase leftDraw rightDraw motionDraw
        mockTemp mockHum).reverse_engaged = false) :
    (ParkingAndCabinModule.read usingReal bodyRaises gpioReverse gpioMotion
        ultraLeft ultraRight dhtPair phase leftDraw rightDraw motionDraw
        mockTemp mockHum).rear_left_distance_cm = Option.none ∧
    (ParkingAndCabinModule.read usingReal bodyRaises gpioReverse gpioMotion
        ultraLeft ultraRight dhtPair phase leftDraw rightDraw motionDraw
        mockTemp mockHum).rear_right_distance_cm = Option.none ∧
    (ParkingAndCabinModule.read usingReal bodyRaises gpioReverse gpioMotion
        ultraLeft ultraRight dhtPair phase leftDraw rightDraw motionDraw
        mockTemp mockHum).rear_left_warning = Option.none ∧
    (ParkingAndCabinModule.read usingReal bodyRaises gpioReverse gpioMotion
        ultraLeft ultraRight dhtPair phase leftDraw rightDraw motionDraw
        mockTemp mockHum).rear_right_warning = Option.none := by
  by_cases hb : bodyRaises
  · simp [ParkingAndCabinModule.read, hb, safeDefaultRecord]
  · simp only [ParkingAndCabinModule.read, hb, if_false, Bool.false_eq_true] at h ⊢
    simp only [h, if_false, Bool.false_eq_true]
    simp

/-- Witness for C4 at a concrete input: a successful mock read in phase
0 has reverse disengaged and all four proximity fields absent. -/
theorem read_reverse_off_all_absent_witness :
    (ParkingAndCabinModule.read false false false false Option.none Option.none
        (Option.none, Option.none) 0 40 45 false 25 50).rear_left_distance_cm = Option.none ∧
    (ParkingAndCabinModule.read false false false false Option.none Option.none
        (Option.none, Option.none) 0 40 45 false 25 50).rear_right_distance_cm = Option.none ∧
    (ParkingAndCabinModule.read false false false false Option.none Option.none
        (Option.none, Option.none) 0 40 45 false 25 50).rear_left_warning = Option.none ∧
    (ParkingAndCabinModule.read false false false false Option.none Option.none
        (Option.none, Option.none) 0 40 45 false 25 50).rear_right_warning = Option.none :=
  read_reverse_off_all_absent false false false false Option.none Option.none
    (Option.none, Option.none) 0 40 45 false 25 50 (by decide)

/-- C8: in real mode, a `_read_dht` call whose cache is younger than the
2.5 s window and fully populated returns exactly the cached pair,
performs zero hardware attempts, and leaves the state untouched. -/
theorem readDht_fresh_cache (now : ℚ) (att : ℕ → DhtAttempt) (s : DhtState)
    (t h : ℚ) (hts : now - s.lastReadTs < 5 / 2)
    (ht : s.cachedTemp = some t) (hh : s.cachedHum = some h) :
    readDht true now att s = ((some t, some h), s, 0) := by
  simp [readDht, hts, ht, hh]

/-- Witness for C8: cache written at t=0, queried at t=1 with values
(21, 40): the call returns (21, 40), consumes no attempt, keeps state. -/
theorem readDht_fresh_cache_witness :
    readDht true 1 (fun _ => DhtAttempt.raised)
        { lastReadTs := 0, cachedTemp := some 21, cachedHum := some 40 } =
      ((some 21, some 40), { lastReadTs := 0, cachedTemp := some 21, cachedHum := some 40 }, 0) :=
  readDht_fresh_cache 1 (fun _ => DhtAttempt.raised)
    { lastReadTs := 0, cachedTemp := some 21, cachedHum := some 40 }
    21 40 (by norm_num) rfl rfl

/-- If no attempt in the window `[i, i+n)` is accepted, the retry loop
of `_read_dht` finds no fresh pair and consumes all `n` attempts. -/
theorem dhtLoop_none (att : ℕ → DhtAttempt) :
    ∀ n i, (∀ j, i ≤ j → j < i + n → dhtAttemptAccepted (att j) = false) →
      dhtLoop att i n = (Option.none, i + n) := by
  intro n
  induction n with
  | zero => intro i _; simp [dhtLoop]
  | succ n ih =>
    intro i hfail
    have hi : dhtAttemptAccepted (att i) = false := hfail i (le_refl i) (by omega)
    have hrec : dhtLoop att (i + 1) n = (Option.none, i + 1 + n) :=
      ih (i + 1) (fun j hj1 hj2 => hfail j (by omega) (by omega))
    have harith : i + 1 + n = i + (n + 1) := by omega
    cases hai : att i with
    | raised => rw [dhtLoop, hai, hrec, harith]
    | value t h =>
      cases t with
      | none => rw [dhtLoop, hai, hrec, harith]
      | some tv =>
        cases h with
        | none => rw [dhtLoop, hai, hrec, harith]
        | some hv =>
          rw [hai] at hi
          simp [dhtAttemptAccepted] at hi

/-- C9: in real mode with a stale (or incomplete) cache, if all three
fresh-read attempts fail — raise or yield a malformed pair — then
`_read_dht` leaves the cached temperature, humidity and timestamp
unchanged and returns the previous cached pair. -/
theorem readDht_retries_exhausted_keeps_cache (now : ℚ) (att : ℕ → DhtAttempt)
    (s : DhtState)
    (hstale : ¬(now - s.lastReadTs < 5 / 2 ∧ s.cachedTemp.isSome ∧ s.cachedHum.isSome))
    (hfail : ∀ j < 3, dhtAttemptAccepted (att j) = false) :
    readDht true now att s = ((s.cachedTemp, s.cachedHum), s, 3) := by
  have hloop : dhtLoop att 0 3 = (Option.none, 3) := by
    have := dhtLoop_none att 3 0 (fun j _ hj2 => hfail j (by omega))
    simpa using this
  simp [readDht, hstale, hloop]

/-- Witness for C9: stale cache holding (21, 40), three raising
attempts: the call returns (21, 40) and the state is unchanged. -/
theorem readDht_retries_exhausted_keeps_cache_witness :
    readDht true 10 (fun _ => DhtAttempt.raised)
        { lastReadTs := 0, cachedTemp := some 21, cachedHum := some 40 } =
      ((some 21, some 40), { lastReadTs := 0, cachedTemp := some 21, cachedHum := some 40 }, 3) :=
  readDht_retries_exhausted_keeps_cache 10 (fun _ => DhtAttempt.raised)
    { lastReadTs := 0, cachedTemp := some 21, cachedHum := some 40 }
    (by norm_num) (fun j _ => rfl)

/-- C5: a message whose action is absent or outside `VALID_COMMANDS` is
answered with exactly one error message `Invalid action: <action>` and
leaves the whole shared server state (settings, media/bluetooth, GPS
baseline, tire pressure, battery cells) unchanged. -/
theorem handle_command_invalid_action (st : ServerState) (randTrack : ℤ)
    (data : CmdData)
    (h : data.action = Option.none ∨
      ∃ a, data.action = some a ∧ a ∉ VALID_COMMANDS) :
    handle_command st randTrack (.ok data) =
      (st, [.error ("Invalid action: " ++ pyShowAction data.action)]) := by
  rcases h with h | ⟨a, ha, hnot⟩
  · simp [handle_command, h, pyShowAction]
  · have hval : a ∈ VALID_COMMANDS → False := hnot
    simp [handle_command, ha, pyShowAction, hnot]

/-- Witness for C5: the spec scenario `{"action":"drive_warp"}` on the
freshly initialized server yields the error `Invalid action: drive_warp`
with the state untouched. -/
theorem handle_command_invalid_action_witness :
    handle_command initialServerState 1 (.ok (actionOnly (some "drive_warp"))) =
      (initialServerState, [.error "Invalid action: drive_warp"]) :=
  handle_command_invalid_action initialServerState 1
    (actionOnly (some "drive_warp"))
    (Or.inr ⟨"drive_warp", rfl, by decide⟩)

/-- C10: every setter command stores the client-supplied `value` into
the settings map verbatim — no type or range validation — and responds
`success`; when the `value` field is missing, the targeted setting is
overwritten with the hard-coded default (80, "standard", "eco", 60,
`False`, `True`, "3d" respectively) rather than left unchanged. -/
theorem execute_setters_store_verbatim (st : ServerState) (randTrack : ℤ)
    (v : PyVal) :
    (execute_command st randTrack "set_charge_limit" (setterMsg "set_charge_limit" (some v)) =
      .ok ({ st with settings := { st.settings with charge_limit := v } },
        .response "set_charge_limit" "success" (some v))) ∧
    (execute_command st randTrack "set_charge_limit" (setterMsg "set_charge_limit" Option.none) =
      .ok ({ st with settings := { st.settings with charge_limit := .int 80 } },
        .response "set_charge_limit" "success" (some (.int 80)))) ∧
    (execute_command st randTrack "set_regen_level" (setterMsg "set_regen_level" (some v)) =
      .ok ({ st with settings := { st.settings with regen_level := v } },
        .response "set_regen_level" "success" (some v))) ∧
    (execute_command st randTrack "set_regen_level" (setterMsg "set_regen_level" Option.none) =
      .ok ({ st with settings := { st.settings with regen_level := .str "standard" } },
        .response "set_regen_level" "success" (some (.str "standard")))) ∧
    (execute_command st randTrack "set_drive_mode" (setterMsg "set_drive_mode" (some v)) =
      .ok ({ st with settings := { st.settings with drive_mode := v } },
        .response "set_drive_mode" "success" (some v))) ∧
    (execute_command st randTrack "set_drive_mode" (setterMsg "set_drive_mode" Option.none) =
      .ok ({ st with settings := { st.settings with drive_mode := .str "eco" } },
        .response "set_drive_mode" "success" (some (.str "eco")))) ∧
    (execute_command st randTrack "set_brightness" (setterMsg "set_brightness" (some v)) =
      .ok ({ st with settings := { st.settings with brightness := v } },
        .response "set_brightness" "success" (some v))) ∧
    (execute_command st randTrack "set_brightness" (setterMsg "set_brightness" Option.none) =
      .ok ({ st with settings := { st.settings with brightness := .int 60 } },
        .response "set_brightness" "success" (some (.int 60)))) ∧
    (execute_command st randTrack "set_theme" (setterMsg "set_theme" (some v)) =
      .ok ({ st with settings := { st.settings with light_theme := v } },
        .response "set_theme" "success" (some v))) ∧
    (execute_command st randTrack "set_theme" (setterMsg "set_theme" Option.none) =
      .ok ({ st with settings := { st.settings with light_theme := .bool false } },
        .response "set_theme" "success" (some (.bool false)))) ∧
    (execute_command st randTrack "toggle_predictions" (setterMsg "toggle_predictions" (some v)) =
      .ok ({ st with settings := { st.settings with predictions_on := v } },
        .response "toggle_predictions" "success" (some v))) ∧
    (execute_command st randTrack "toggle_predictions" (setterMsg "toggle_predictions" Option.none) =
      .ok ({ st with settings := { st.settings with predictions_on := .bool true } },
        .response "toggle_predictions" "success" (some (.bool true)))) ∧
    (execute_command st randTrack "set_twin_mode" (setterMsg "set_twin_mode" (some v)) =
      .ok ({ st with settings := { st.settings with twin_mode := v } },
        .response "set_twin_mode" "success" (some v))) ∧
    (execute_command st randTrack "set_twin_mode" (setterMsg "set_twin_mode" Option.none) =
      .ok ({ st with settings := { st.settings with twin_mode := .str "3d" } },
        .response "set_twin_mode" "success" (some (.str "3d")))) := by
  refine ⟨?_, ?_, ?_, ?_, ?_, ?_, ?_, ?_, ?_, ?_, ?_, ?_, ?_, ?_⟩ <;> rfl

/-- Any snapshot that `buildTelemetry` successfully assembles carries the
settings map it was given. -/
theorem buildTelemetry_ok_settings {pd : List (String × PyVal)}
    {dhtT dhtH : PyVal} {vd : VehicleData} {gd : GpsData} {ms : MediaStatus}
    {ts : String} {soh eff wheel : ℚ} {wifi btC canC : Bool}
    {tp : TirePressure} {bc : BatteryCells} {settings : Settings}
    {t : Telemetry}
    (h : buildTelemetry pd dhtT dhtH vd gd ms ts soh eff wheel wifi btC canC
      tp bc settings = .ok t) :
    t.settings = settings := by
  unfold buildTelemetry at h
  repeat' split at h
  any_goals exact Except.noConfusion h
  injection h with h2
  subst h2
  rfl

/-- `finishTelemetry` preserves a settings invariant of the assembled
snapshot (the fallback carries the same settings map). -/
theorem finishTelemetry_settings (r : Except String Telemetry) (ts : String)
    (settings : Settings)
    (h : ∀ t, r = .ok t → t.settings = settings) :
    (finishTelemetry r ts settings).settings = settings := by
  cases r with
  | ok t => exact h t rfl
  | error e => rfl

/-- `collect_telemetry` always embeds the settings map it reads, in the
full snapshot and in the fallback snapshot alike (main.py:840, 871). -/
theorem collect_telemetry_settings
    (parkingRes : Except String (List (String × PyVal)))
    (canRes : Except String VehicleData) (gpsRes : Except String GpsData)
    (btRes : Except String MediaStatus) (ts : String)
    (soh eff wheel : ℚ) (wifi btC canC : Bool)
    (tp : TirePressure) (bc : BatteryCells) (settings : Settings) :
    (collect_telemetry parkingRes canRes gpsRes btRes ts soh eff wheel wifi
      btC canC tp bc settings).settings = settings := by
  unfold collect_telemetry
  exact finishTelemetry_settings _ _ _ (fun t ht => buildTelemetry_ok_settings ht)

/-- C6: the message `{"action":"set_brightness","value":75}` is answered
with exactly `{"type":"response","action":"set_brightness",
"status":"success","value":75}`, the settings map records brightness 75,
and every subsequent `collect_telemetry` snapshot — whatever each sensor
driver does — reports `settings.brightness = 75`. -/
theorem set_brightness_75_scenario (st : ServerState) (randTrack : ℤ)
    (parkingRes : Except String (List (String × PyVal)))
    (canRes : Except String VehicleData) (gpsRes : Except String GpsData)
    (btRes : Except String MediaStatus) (ts : String)
    (soh eff wheel : ℚ) (wifi btC canC : Bool)
    (tp : TirePressure) (bc : BatteryCells) :
    handle_command st randTrack (.ok (setterMsg "set_brightness" (some (.int 75)))) =
      ({ st with settings := { st.settings with brightness := .int 75 } },
        [.response "set_brightness" "success" (some (.int 75))]) ∧
    (collect_telemetry parkingRes canRes gpsRes btRes ts soh eff wheel wifi
        btC canC tp bc
        { st.settings with brightness := .int 75 }).settings.brightness = .int 75 := by
  constructor
  · rfl
  · rw [collect_telemetry_settings]

/-- C1 (refuting evaluation): whenever the parking-module read SUCCEEDS,
`collect_telemetry` returns the minimal fallback snapshot — whatever the
other drivers do — because the snapshot assembly looks up the keys
`distance_cm` / `proximity_warning` (main.py:835-836), which the parking
read never returns (parking_module.py:292-301), and the resulting
`KeyError` reaches the outer handler (main.py:845). In particular, with
no failing driver at all, the full non-fallback snapshot is NOT
returned, contrary to the claim. -/
theorem collect_ok_parking_read_falls_back (r : ParkingRecord)
    (canRes : Except String VehicleData) (gpsRes : Except String GpsData)
    (btRes : Except String MediaStatus) (ts : String)
    (soh eff wheel : ℚ) (wifi btC canC : Bool)
    (tp : TirePressure) (bc : BatteryCells) (settings : Settings) :
    collect_telemetry (.ok r.toDict) canRes gpsRes btRes ts soh eff wheel wifi
      btC canC tp bc settings = fallbackTelemetry ts settings := by
  have hb : ∃ e, buildTelemetry r.toDict (dictGet r.toDict "temperature_c")
      (dictGet r.toDict "humidity_pct") (exceptGetD canRes vehicleFallback)
      (exceptGetD gpsRes gpsFallback) (exceptGetD btRes mediaFallback)
      ts soh eff wheel wifi btC canC tp bc settings = .error e := by
    unfold buildTelemetry
    cases hc : cabinTempValue (dictGet r.toDict "temperature_c")
        (dictGet r.toDict "temperature_c") with
    | error e => exact ⟨e, by simp only [hc]⟩
    | ok c =>
      refine ⟨"KeyError: " ++ "distance_cm", ?_⟩
      have h1 : dictGetItem r.toDict "reverse_engaged" =
        Except.ok (PyVal.bool r.reverse_engaged) := rfl
      have h2 : dictGetItem r.toDict "motion_detected" =
        Except.ok (PyVal.bool r.motion_detected) := rfl
      have h3 : dictGetItem r.toDict "distance_cm" =
        Except.error ("KeyError: " ++ "distance_cm") := rfl
      simp only [hc, h1, h2, h3]
  obtain ⟨e, he⟩ := hb
  unfold collect_telemetry
  show finishTelemetry
      (buildTelemetry r.toDict (dictGet r.toDict "temperature_c")
        (dictGet r.toDict "humidity_pct") (exceptGetD canRes vehicleFallback)
        (exceptGetD gpsRes gpsFallback) (exceptGetD btRes mediaFallback)
        ts soh eff wheel wifi btC canC tp bc settings)
      ts settings = fallbackTelemetry ts settings
  rw [he]
  rfl

/-- C2 (refuting evaluation): a broadcast tick over clients `[1, 2]`
where only the send to client 2 raises delivers the identical snapshot
to client 1 and is not aborted, but the client set after the tick is
still `[1, 2]`: the failed client 2 is NOT removed (the loop at
main.py:690-692 only logs, despite its `Remove failed clients`
comment), so the set does not equal the before-set minus client 2. -/
theorem broadcast_tick_keeps_failed_client :
    broadcast_tick [1, 2] (fun c => c = 2) snap0 = ([(1, snap0)], [1, 2]) ∧
    ([1, 2] : List ℕ) ≠ [1] := by
  constructor
  · rfl
  · decide

/-- C7 (refuting evaluation): a successful simulated read in the "high"
phase (phase 3) with reverse engaged and in-range draws (left 7 cm;
right 12 cm — the right draw range is 10-14 cm because of the +5
offset) yields `rear_left_warning = high` but `rear_right_warning =
medium`, and the resulting snapshot drops both: `collect_telemetry`
falls into the minimal fallback (the `KeyError` of main.py:835) whose
`parking.proximity_warning` is `None`, not `high`. -/
theorem mock_high_phase_snapshot_warning :
    mockDrawValid 3 "rear_left" 7 ∧ mockDrawValid 3 "rear_right" 12 ∧
    highPhaseRecord.reverse_engaged = true ∧
    highPhaseRecord.rear_left_warning = some "high" ∧
    highPhaseRecord.rear_right_warning = some "medium" ∧
    (collect_telemetry (.ok highPhaseRecord.toDict) (.ok vd0) (.ok gd0)
        (.ok ms0) "t1" 97 8 20 true false false initialTirePressure
        initialBatteryCells initialSettings).parking.proximity_warning
      = PyVal.none := by
  refine ⟨?_, ?_, by decide, by decide, by decide, ?_⟩
  · simp only [mockDrawValid, mockDistLo, mockDistHi, mockOffset,
      String.reduceEq, reduceIte]
    norm_num
  · simp only [mockDrawValid, mockDistLo, mockDistHi, mockOffset,
      String.reduceEq, reduceIte]
    norm_num
  · rfl
